import Mathlib

/-!
Shallow embedding of `src/rpc.rs` (the `ZenohRpcClient::invoke_method`
implementation of the `RpcClient` trait) from the up-transport-zenoh-rust
repository, together with theorems settling the specification claims.

External collaborators (the `LocalUriProvider`, the attachment codec
`UPTransportZenoh::uattributes_to_attachment` / `attachment_to_uattributes`,
the key resolver `to_zenoh_key_string`, and the Zenoh session's `get`
query primitive) live outside `src/`; they are modelled as oracle
functions gathered in an `Env` record, following the spec's §6 external
interface signatures.  `invoke_method` itself is translated line by line
from the source and additionally returns a trace of the transport-side
effects it performs, so that claims about "no query is issued" or
"at most one reply is consumed" are statable.
-/

/-- Byte strings (payload bodies, attachments). -/
abbrev Bytes := List Nat

/-- Model of `up_rust::UUID` (two 64-bit halves, modelled as naturals). -/
structure UUID where
  msb : Nat
  lsb : Nat
deriving DecidableEq, Repr

/-- Model of `up_rust::UUri` (authority, entity id, version, resource id). -/
structure UUri where
  authority_name : String
  ue_id : Nat
  ue_version_major : Nat
  resource_id : Nat
deriving DecidableEq, Repr

/-- Model of `up_rust::UPayloadFormat` (protobuf enum; default is UNSPECIFIED). -/
inductive UPayloadFormat where
  | UPAYLOAD_FORMAT_UNSPECIFIED
  | UPAYLOAD_FORMAT_PROTOBUF_WRAPPED_IN_ANY
  | UPAYLOAD_FORMAT_PROTOBUF
  | UPAYLOAD_FORMAT_JSON
  | UPAYLOAD_FORMAT_SOMEIP
  | UPAYLOAD_FORMAT_SOMEIP_TLV
  | UPAYLOAD_FORMAT_RAW
  | UPAYLOAD_FORMAT_TEXT
  | UPAYLOAD_FORMAT_SHM
deriving DecidableEq, Repr

instance : Inhabited UPayloadFormat := ⟨.UPAYLOAD_FORMAT_UNSPECIFIED⟩

/-- Model of `up_rust::UPriority` (protobuf enum; default is UNSPECIFIED). -/
inductive UPriority where
  | UPRIORITY_UNSPECIFIED
  | UPRIORITY_CS0
  | UPRIORITY_CS1
  | UPRIORITY_CS2
  | UPRIORITY_CS3
  | UPRIORITY_CS4
  | UPRIORITY_CS5
  | UPRIORITY_CS6
deriving DecidableEq, Repr

/-- Model of `up_rust::UMessageType`. -/
inductive UMessageType where
  | UMESSAGE_TYPE_UNSPECIFIED
  | UMESSAGE_TYPE_PUBLISH
  | UMESSAGE_TYPE_REQUEST
  | UMESSAGE_TYPE_RESPONSE
  | UMESSAGE_TYPE_NOTIFICATION
deriving DecidableEq, Repr

/-- Model of `up_rust::UCode` (status codes; only the ones reachable here
plus a few others, so that "the code is INTERNAL" is a non-trivial fact). -/
inductive UCode where
  | OK
  | CANCELLED
  | UNKNOWN
  | INVALID_ARGUMENT
  | DEADLINE_EXCEEDED
  | NOT_FOUND
  | PERMISSION_DENIED
  | UNAVAILABLE
  | INTERNAL
deriving DecidableEq, Repr

/-- Model of `up_rust::UStatus` (code plus optional human-readable message). -/
structure UStatus where
  code : UCode
  message : Option String
deriving DecidableEq, Repr

/-- Model of `up_rust::communication::ServiceInvocationError`.  The real
enum has further variants (listed here so that "only Internal or RpcError
is ever returned" is a non-trivial statement). -/
inductive ServiceInvocationError where
  | AlreadyExists (msg : String)
  | DeadlineExceeded
  | Internal (msg : String)
  | InvalidArgument (msg : String)
  | NotFound (msg : String)
  | PermissionDenied (msg : String)
  | ResourceExhausted (msg : String)
  | RpcError (status : UStatus)
  | Unimplemented (msg : String)
deriving DecidableEq, Repr

/-- Model of `up_rust::communication::UPayload`: payload bytes plus a
payload-format tag.  `UPayload::new(data, format)` is the anonymous
constructor; `payload()` and `payload_format()` are the projections. -/
structure UPayload where
  payload : Bytes
  payload_format : UPayloadFormat
deriving DecidableEq, Repr

/-- Model of `up_rust::communication::CallOptions` for RPC requests:
`ttl()` (milliseconds, required), `message_id()`, `priority()`, `token()`. -/
structure CallOptions where
  ttl : Nat
  message_id : Option UUID
  priority : Option UPriority
  token : Option String
deriving DecidableEq, Repr

/-- Model of `up_rust::UAttributes`, restricted to the fields
`invoke_method` sets (the `..Default::default()` remainder plays no role
in any claim). -/
structure UAttributes where
  type_ : UMessageType
  id : Option UUID
  priority : UPriority
  source : Option UUri
  sink : Option UUri
  ttl : Option Nat
  token : Option String
  payload_format : UPayloadFormat
deriving DecidableEq, Repr

/-- Model of zenoh's `QueryTarget` selection policy. -/
inductive QueryTarget where
  | BestMatching
  | All
  | AllComplete
deriving DecidableEq, Repr

/-- The outbound Zenoh query as configured by `invoke_method`:
key expression, optional body (`with_value`), attachment
(`with_attachment`), target policy (`target`) and timeout in
milliseconds (`timeout(Duration::from_millis(...))`). -/
structure Query where
  key_expr : String
  body : Option Bytes
  attachment : Bytes
  target : QueryTarget
  timeout_ms : Nat
deriving DecidableEq, Repr

/-- A valid zenoh sample: payload bytes (always present, possibly empty)
and an optional attachment. -/
structure Sample where
  payload : Bytes
  attachment : Option Bytes
deriving DecidableEq, Repr

instance instDecEqExcept {ε α : Type} [DecidableEq ε] [DecidableEq α] :
    DecidableEq (Except ε α)
  | .ok a, .ok b =>
      if h : a = b then isTrue (congrArg Except.ok h)
      else isFalse (fun he => h (Except.ok.inj he))
  | .error a, .error b =>
      if h : a = b then isTrue (congrArg Except.error h)
      else isFalse (fun he => h (Except.error.inj he))
  | .ok _, .error _ => isFalse (fun he => Except.noConfusion he)
  | .error _, .ok _ => isFalse (fun he => Except.noConfusion he)

/-- A zenoh reply: its `sample` field is either a valid sample or a
transport-level error value (modelled by its debug-format diagnostic). -/
structure Reply where
  sample : Except String Sample
deriving DecidableEq, Repr

/-- Outcome of issuing the query and performing the single receive:
the `get` itself may fail (`send_error`), the reply channel may yield
no item (`recv_error`), or one reply is obtained. -/
inductive QueryOutcome where
  | send_error
  | recv_error
  | reply (r : Reply)
deriving DecidableEq, Repr

/-- Transport-side effects performed by one invocation, in order. -/
inductive Event where
  | sourceResolved
  | querySent (q : Query)
  | replyRecv
deriving DecidableEq, Repr

/-- Oracle environment gathering the external collaborators of
`invoke_method` (spec §6).  `uattributes_to_attachment` and
`attachment_to_uattributes` model the repository's attachment codec
(declared outside `src/`; per the spec a symmetric fallible codec,
`Option` standing for `Result`).  `query_outcome` models the Zenoh
session's `get` followed by the single `recv_async`.  `fresh_uuid` is
the value `UUID::build()` would produce for this call. -/
structure Env where
  get_source_uri : UUri
  fresh_uuid : UUID
  to_zenoh_key_string : UUri → Option UUri → String
  uattributes_to_attachment : UAttributes → Option Bytes
  attachment_to_uattributes : Bytes → Option UAttributes
  query_outcome : Query → QueryOutcome

/-- Lines 52-57 of `rpc.rs`: the optional body bytes extracted from the
optional `UPayload` argument. -/
def payload_data_of (payload : Option UPayload) : Option Bytes :=
  match payload with
  | some p => some p.payload
  | none => none

/-- Lines 52-57 of `rpc.rs`: the request payload-format tag, defaulting
to UNSPECIFIED when no payload is supplied. -/
def payload_format_of (payload : Option UPayload) : UPayloadFormat :=
  match payload with
  | some p => p.payload_format
  | none => .UPAYLOAD_FORMAT_UNSPECIFIED

/-- Lines 59-75 of `rpc.rs`: the `UAttributes` record built for the
outbound request. -/
def request_attributes_of (env : Env) (method : UUri) (call_options : CallOptions)
    (payload : Option UPayload) : UAttributes :=
  { type_ := .UMESSAGE_TYPE_REQUEST
    id := some (call_options.message_id.getD env.fresh_uuid)
    priority := call_options.priority.getD .UPRIORITY_UNSPECIFIED
    source := some env.get_source_uri
    sink := some method
    ttl := some call_options.ttl
    token := call_options.token
    payload_format := payload_format_of payload }

/-- Lines 77-97 of `rpc.rs`: the outbound query as configured by the
`getbuilder` chain, given the successfully encoded attachment. -/
def request_query_of (env : Env) (method : UUri) (call_options : CallOptions)
    (payload : Option UPayload) (attachment : Bytes) : Query :=
  { key_expr := env.to_zenoh_key_string env.get_source_uri (some method)
    body := payload_data_of payload
    attachment := attachment
    target := .BestMatching
    timeout_ms := call_options.ttl }

/-- Model of `ZenohRpcClient::invoke_method` (lines 45-139 of `rpc.rs`),
returning the result together with the ordered trace of transport-side
effects: resolving the caller's source URI, sending the query, and
performing the single receive on the reply channel. -/
def invoke_method (env : Env) (method : UUri) (call_options : CallOptions)
    (payload : Option UPayload) :
    Except ServiceInvocationError (Option UPayload) × List Event :=
  let attributes := request_attributes_of env method call_options payload
  match env.uattributes_to_attachment attributes with
  | none =>
      (.error (.Internal "Unable to transform UAttributes to user attachment in Zenoh"),
       [.sourceResolved])
  | some attachment =>
      let query := request_query_of env method call_options payload attachment
      match env.query_outcome query with
      | .send_error =>
          (.error (.RpcError { code := .INTERNAL,
                               message := some "Error while sending Zenoh query" }),
           [.sourceResolved, .querySent query])
      | .recv_error =>
          (.error (.RpcError { code := .INTERNAL,
                               message := some "Error while receiving Zenoh reply" }),
           [.sourceResolved, .querySent query, .replyRecv])
      | .reply r =>
          match r.sample with
          | .ok sample =>
              let fmt := (sample.attachment.bind env.attachment_to_uattributes).map
                (fun attr => attr.payload_format)
              (.ok (some { payload := sample.payload
                           payload_format := fmt.getD .UPAYLOAD_FORMAT_UNSPECIFIED }),
               [.sourceResolved, .querySent query, .replyRecv])
          | .error e =>
              (.error (.RpcError { code := .INTERNAL,
                                   message := some ("Error while parsing Zenoh reply: " ++ e) }),
               [.sourceResolved, .querySent query, .replyRecv])

/-- Queries sent during a trace. -/
def sent_queries (tr : List Event) : List Query :=
  tr.filterMap fun e =>
    match e with
    | .querySent q => some q
    | _ => none

/-- Number of receives performed on the reply channel during a trace. -/
def recv_count (tr : List Event) : Nat :=
  tr.countP fun e =>
    match e with
    | .replyRecv => true
    | _ => false

/-- Number of times the caller's source URI was resolved during a trace. -/
def source_resolved_count (tr : List Event) : Nat :=
  tr.countP fun e =>
    match e with
    | .sourceResolved => true
    | _ => false

/-- Case characterization: when encoding the attributes fails,
`invoke_method` returns the fixed `Internal` error and only the
source-resolution effect happened. -/
theorem invoke_method_encode_none (env : Env) (method : UUri)
    (call_options : CallOptions) (payload : Option UPayload)
    (h : env.uattributes_to_attachment
        (request_attributes_of env method call_options payload) = none) :
    invoke_method env method call_options payload =
      (.error (.Internal "Unable to transform UAttributes to user attachment in Zenoh"),
       [.sourceResolved]) := by
  unfold invoke_method
  simp only [h]

/-- Case characterization: when the attributes encode but the query send
fails, `invoke_method` returns the fixed `RpcError(INTERNAL)` and the
trace shows one source resolution and one sent query. -/
theorem invoke_method_send_error (env : Env) (method : UUri)
    (call_options : CallOptions) (payload : Option UPayload) (att : Bytes)
    (h1 : env.uattributes_to_attachment
        (request_attributes_of env method call_options payload) = some att)
    (h2 : env.query_outcome (request_query_of env method call_options payload att) =
        .send_error) :
    invoke_method env method call_options payload =
      (.error (.RpcError { code := .INTERNAL,
                           message := some "Error while sending Zenoh query" }),
       [.sourceResolved, .querySent (request_query_of env method call_options payload att)]) := by
  unfold invoke_method
  simp only [h1, h2]

/-- Case characterization: the reply channel yields no item. -/
theorem invoke_method_recv_error (env : Env) (method : UUri)
    (call_options : CallOptions) (payload : Option UPayload) (att : Bytes)
    (h1 : env.uattributes_to_attachment
        (request_attributes_of env method call_options payload) = some att)
    (h2 : env.query_outcome (request_query_of env method call_options payload att) =
        .recv_error) :
    invoke_method env method call_options payload =
      (.error (.RpcError { code := .INTERNAL,
                           message := some "Error while receiving Zenoh reply" }),
       [.sourceResolved, .querySent (request_query_of env method call_options payload att),
        .replyRecv]) := by
  unfold invoke_method
  simp only [h1, h2]

/-- Case characterization: a reply with a valid sample succeeds, with the
payload-format tag taken from the best-effort decode of the reply
attachment. -/
theorem invoke_method_reply_ok (env : Env) (method : UUri)
    (call_options : CallOptions) (payload : Option UPayload) (att : Bytes)
    (r : Reply) (s : Sample)
    (h1 : env.uattributes_to_attachment
        (request_attributes_of env method call_options payload) = some att)
    (h2 : env.query_outcome (request_query_of env method call_options payload att) =
        .reply r)
    (h3 : r.sample = .ok s) :
    invoke_method env method call_options payload =
      (.ok (some { payload := s.payload
                   payload_format :=
                     ((s.attachment.bind env.attachment_to_uattributes).map
                       (fun attr => attr.payload_format)).getD
                       .UPAYLOAD_FORMAT_UNSPECIFIED }),
       [.sourceResolved, .querySent (request_query_of env method call_options payload att),
        .replyRecv]) := by
  unfold invoke_method
  simp only [h1, h2, h3]

/-- Case characterization: a reply whose sample is a transport-level
error maps to `RpcError(INTERNAL)` with the diagnostic embedded. -/
theorem invoke_method_reply_error (env : Env) (method : UUri)
    (call_options : CallOptions) (payload : Option UPayload) (att : Bytes)
    (r : Reply) (d : String)
    (h1 : env.uattributes_to_attachment
        (request_attributes_of env method call_options payload) = some att)
    (h2 : env.query_outcome (request_query_of env method call_options payload att) =
        .reply r)
    (h3 : r.sample = .error d) :
    invoke_method env method call_options payload =
      (.error (.RpcError { code := .INTERNAL,
                           message := some ("Error while parsing Zenoh reply: " ++ d) }),
       [.sourceResolved, .querySent (request_query_of env method call_options payload att),
        .replyRecv]) := by
  unfold invoke_method
  simp only [h1, h2, h3]

/-- Concrete caller URI for witnesses. -/
def testSourceUri : UUri := ⟨"caller", 4097, 1, 0⟩

/-- Concrete target method URI for witnesses. -/
def testMethodUri : UUri := ⟨"callee", 8194, 1, 28673⟩

/-- Concrete caller-supplied message identity for witnesses. -/
def testUuid : UUID := ⟨7, 42⟩

/-- Concrete value standing for the freshly built UUID of one call. -/
def testFreshUuid : UUID := ⟨99, 1⟩

/-- Concrete call options: ttl 1000 ms, nothing else supplied. -/
def testOptions : CallOptions := ⟨1000, none, none, none⟩

/-- Concrete reply attributes a responder might attach (TEXT format). -/
def testReplyAttributes : UAttributes :=
  { type_ := .UMESSAGE_TYPE_RESPONSE
    id := some ⟨1, 2⟩
    priority := .UPRIORITY_CS4
    source := some testMethodUri
    sink := some testSourceUri
    ttl := some 1000
    token := none
    payload_format := .UPAYLOAD_FORMAT_TEXT }

/-- Concrete environment builder for witnesses: fixed source URI and
fresh UUID, a fixed key resolver, and the given codec and query
behaviours. -/
def mkEnv (qo : QueryOutcome) (enc : UAttributes → Option Bytes)
    (dec : Bytes → Option UAttributes) : Env :=
  { get_source_uri := testSourceUri
    fresh_uuid := testFreshUuid
    to_zenoh_key_string := fun _ _ => "up/key.expr"
    uattributes_to_attachment := enc
    attachment_to_uattributes := dec
    query_outcome := fun _ => qo }

/-- Environment whose attachment codec always fails to encode. -/
def envEncodeFail : Env := mkEnv .send_error (fun _ => none) (fun _ => none)

/-- Environment where the query send itself fails. -/
def envSendFail : Env := mkEnv .send_error (fun _ => some [1, 2, 3]) (fun _ => none)

/-- Environment where the reply channel yields no item. -/
def envRecvFail : Env := mkEnv .recv_error (fun _ => some [1, 2, 3]) (fun _ => none)

/-- Environment replying with a valid sample carrying no attachment. -/
def envReplyNoAtt : Env :=
  mkEnv (.reply ⟨.ok ⟨[104, 105], none⟩⟩) (fun _ => some [1, 2, 3]) (fun _ => none)

/-- Environment replying with a valid sample whose attachment fails to decode. -/
def envReplyBadAtt : Env :=
  mkEnv (.reply ⟨.ok ⟨[104, 105], some [9]⟩⟩) (fun _ => some [1, 2, 3]) (fun _ => none)

/-- Environment replying with a valid sample whose attachment decodes to
`testReplyAttributes` (TEXT format). -/
def envReplyText : Env :=
  mkEnv (.reply ⟨.ok ⟨[104, 105], some [9]⟩⟩) (fun _ => some [1, 2, 3])
    (fun _ => some testReplyAttributes)

/-- Environment replying with a malformed (error) sample. -/
def envReplyParseErr : Env :=
  mkEnv (.reply ⟨.error "bad sample"⟩) (fun _ => some [1, 2, 3]) (fun _ => none)

/-- Environment replying with a valid sample carrying empty payload bytes
and no attachment. -/
def envReplyEmpty : Env :=
  mkEnv (.reply ⟨.ok ⟨[], none⟩⟩) (fun _ => some [1, 2, 3]) (fun _ => none)

/-- The trace of an invocation has exactly one of three shapes: only the
source resolution (encode failed), source resolution plus one sent
query, or source resolution, one sent query and one receive. -/
theorem invoke_method_trace_spec (env : Env) (method : UUri)
    (call_options : CallOptions) (payload : Option UPayload) :
    (env.uattributes_to_attachment
        (request_attributes_of env method call_options payload) = none ∧
      (invoke_method env method call_options payload).2 = [.sourceResolved]) ∨
    (∃ att : Bytes,
      env.uattributes_to_attachment
        (request_attributes_of env method call_options payload) = some att ∧
      ((invoke_method env method call_options payload).2 =
          [.sourceResolved, .querySent (request_query_of env method call_options payload att)] ∨
       (invoke_method env method call_options payload).2 =
          [.sourceResolved, .querySent (request_query_of env method call_options payload att),
           .replyRecv])) := by
  rcases henc : env.uattributes_to_attachment
      (request_attributes_of env method call_options payload) with _ | att
  · exact Or.inl ⟨rfl, by rw [invoke_method_encode_none env method call_options payload henc]⟩
  · refine Or.inr ⟨att, rfl, ?_⟩
    rcases hq : env.query_outcome (request_query_of env method call_options payload att)
        with _ | _ | r
    · exact Or.inl (by rw [invoke_method_send_error env method call_options payload att henc hq])
    · exact Or.inr (by rw [invoke_method_recv_error env method call_options payload att henc hq])
    · rcases hs : r.sample with d | s
      · exact Or.inr
          (by rw [invoke_method_reply_error env method call_options payload att r d henc hq hs])
      · exact Or.inr
          (by rw [invoke_method_reply_ok env method call_options payload att r s henc hq hs])

/-- C1: every erroneous result of `invoke_method` is exactly one of two
variants: `Internal` with the fixed message, returned exactly when
encoding the request attributes into the attachment fails, or
`RpcError` with status code INTERNAL, whose message is the fixed
send-failure diagnostic, the fixed receive-failure diagnostic, or the
malformed-sample message embedding the underlying parse diagnostic;
no other error shape is ever returned. -/
theorem invoke_method_error_taxonomy (env : Env) (method : UUri)
    (call_options : CallOptions) (payload : Option UPayload)
    (e : ServiceInvocationError)
    (h : (invoke_method env method call_options payload).1 = .error e) :
    (e = .Internal "Unable to transform UAttributes to user attachment in Zenoh" ∧
      env.uattributes_to_attachment
        (request_attributes_of env method call_options payload) = none) ∨
    (∃ st : UStatus, e = .RpcError st ∧ st.code = .INTERNAL ∧
      (st.message = some "Error while sending Zenoh query" ∨
       st.message = some "Error while receiving Zenoh reply" ∨
       ∃ d : String, st.message = some ("Error while parsing Zenoh reply: " ++ d))) := by
  rcases henc : env.uattributes_to_attachment
      (request_attributes_of env method call_options payload) with _ | att
  · rw [invoke_method_encode_none env method call_options payload henc] at h
    have h2 : Except.error (α := Option UPayload)
        (ServiceInvocationError.Internal
          "Unable to transform UAttributes to user attachment in Zenoh") = .error e := h
    exact Or.inl ⟨(Except.error.inj h2).symm, rfl⟩
  · rcases hq : env.query_outcome (request_query_of env method call_options payload att)
        with _ | _ | r
    · rw [invoke_method_send_error env method call_options payload att henc hq] at h
      have h2 : Except.error (α := Option UPayload)
          (ServiceInvocationError.RpcError
            (UStatus.mk .INTERNAL (some "Error while sending Zenoh query"))) =
          .error e := h
      exact Or.inr ⟨_, (Except.error.inj h2).symm, rfl, Or.inl rfl⟩
    · rw [invoke_method_recv_error env method call_options payload att henc hq] at h
      have h2 : Except.error (α := Option UPayload)
          (ServiceInvocationError.RpcError
            (UStatus.mk .INTERNAL (some "Error while receiving Zenoh reply"))) =
          .error e := h
      exact Or.inr ⟨_, (Except.error.inj h2).symm, rfl, Or.inr (Or.inl rfl)⟩
    · rcases hs : r.sample with d | s
      · rw [invoke_method_reply_error env method call_options payload att r d henc hq hs] at h
        have h2 : Except.error (α := Option UPayload)
            (ServiceInvocationError.RpcError
              (UStatus.mk .INTERNAL (some ("Error while parsing Zenoh reply: " ++ d)))) =
            .error e := h
        exact Or.inr ⟨_, (Except.error.inj h2).symm, rfl, Or.inr (Or.inr ⟨d, rfl⟩)⟩
      · rw [invoke_method_reply_ok env method call_options payload att r s henc hq hs] at h
        have h2 : Except.ok (ε := ServiceInvocationError)
            (some (UPayload.mk s.payload
              (((s.attachment.bind env.attachment_to_uattributes).map
                (fun attr => attr.payload_format)).getD
                .UPAYLOAD_FORMAT_UNSPECIFIED))) = .error e := h
        exact Except.noConfusion h2

/-- Witness for C1 at a concrete input: the encode-failure environment
produces the `Internal` error, and the taxonomy theorem applies to it. -/
theorem invoke_method_error_taxonomy_witness :
    ((ServiceInvocationError.Internal
        "Unable to transform UAttributes to user attachment in Zenoh" =
      .Internal "Unable to transform UAttributes to user attachment in Zenoh") ∧
      envEncodeFail.uattributes_to_attachment
        (request_attributes_of envEncodeFail testMethodUri testOptions none) = none) ∨
    (∃ st : UStatus,
      ServiceInvocationError.Internal
        "Unable to transform UAttributes to user attachment in Zenoh" = .RpcError st ∧
      st.code = .INTERNAL ∧
      (st.message = some "Error while sending Zenoh query" ∨
       st.message = some "Error while receiving Zenoh reply" ∨
       ∃ d : String, st.message = some ("Error while parsing Zenoh reply: " ++ d))) :=
  invoke_method_error_taxonomy envEncodeFail testMethodUri testOptions none _ rfl

/-- C2: for a reply whose sample is valid, failure to decode the reply
attachment (attachment absent, or decoding fails) does not make
`invoke_method` return an error: the call still succeeds and the
payload-format tag degrades to the default UNSPECIFIED value. -/
theorem invoke_method_attachment_best_effort (env : Env) (method : UUri)
    (call_options : CallOptions) (payload : Option UPayload) (att : Bytes)
    (r : Reply) (s : Sample)
    (h1 : env.uattributes_to_attachment
        (request_attributes_of env method call_options payload) = some att)
    (h2 : env.query_outcome (request_query_of env method call_options payload att) =
        .reply r)
    (h3 : r.sample = .ok s)
    (h4 : s.attachment = none ∨
      ∃ a : Bytes, s.attachment = some a ∧ env.attachment_to_uattributes a = none) :
    (invoke_method env method call_options payload).1 =
      .ok (some { payload := s.payload
                  payload_format := .UPAYLOAD_FORMAT_UNSPECIFIED }) := by
  rw [invoke_method_reply_ok env method call_options payload att r s h1 h2 h3]
  rcases h4 with hnone | ⟨a, ha, hd⟩
  · simp [hnone]
  · simp [ha, hd]

/-- Witness for C2 at a concrete input: the undecodable-attachment
environment still succeeds with UNSPECIFIED format. -/
theorem invoke_method_attachment_best_effort_witness :
    (invoke_method envReplyBadAtt testMethodUri testOptions none).1 =
      .ok (some { payload := [104, 105]
                  payload_format := .UPAYLOAD_FORMAT_UNSPECIFIED }) :=
  invoke_method_attachment_best_effort envReplyBadAtt testMethodUri testOptions none
    [1, 2, 3] ⟨.ok ⟨[104, 105], some [9]⟩⟩ ⟨[104, 105], some [9]⟩ rfl rfl rfl
    (Or.inr ⟨[9], rfl, rfl⟩)

/-- C3: when encoding the request attributes into the attachment fails,
`invoke_method` returns the `Internal` variant and no query is ever
issued to the transport: the failure is side-effect-free. -/
theorem invoke_method_encode_failure_side_effect_free (env : Env) (method : UUri)
    (call_options : CallOptions) (payload : Option UPayload)
    (h : env.uattributes_to_attachment
        (request_attributes_of env method call_options payload) = none) :
    (invoke_method env method call_options payload).1 =
      .error (.Internal "Unable to transform UAttributes to user attachment in Zenoh") ∧
    sent_queries (invoke_method env method call_options payload).2 = [] := by
  rw [invoke_method_encode_none env method call_options payload h]
  exact ⟨rfl, rfl⟩

/-- Witness for C3 at a concrete input: in the encode-failure
environment the result is `Internal` and the trace holds no sent query. -/
theorem invoke_method_encode_failure_side_effect_free_witness :
    (invoke_method envEncodeFail testMethodUri testOptions none).1 =
      .error (.Internal "Unable to transform UAttributes to user attachment in Zenoh") ∧
    sent_queries (invoke_method envEncodeFail testMethodUri testOptions none).2 = [] :=
  invoke_method_encode_failure_side_effect_free envEncodeFail testMethodUri testOptions
    none rfl

/-- C4 counterexample: in a concrete environment whose responder returns
a valid reply sample carrying no payload bytes, the result is
`Ok (Some payload-with-empty-bytes)` and not `Ok None`, contradicting
the claim that a valid reply sample with no payload yields `Ok(None)`. -/
theorem invoke_method_empty_reply_not_none :
    (invoke_method envReplyEmpty testMethodUri testOptions none).1 =
      .ok (some (UPayload.mk [] .UPAYLOAD_FORMAT_UNSPECIFIED)) ∧
    (invoke_method envReplyEmpty testMethodUri testOptions none).1 ≠ .ok none := by
  exact ⟨rfl, by decide⟩

/-- C4 (amended): a successful result of `invoke_method` always carries
`Some`: whenever the call succeeds the value is `Some` of a payload,
whose bytes equal the reply sample's bytes (possibly empty) when the
reply sample is valid; `Ok None` is never returned. -/
theorem invoke_method_success_always_some (env : Env) (method : UUri)
    (call_options : CallOptions) (payload : Option UPayload)
    (res : Option UPayload)
    (h : (invoke_method env method call_options payload).1 = .ok res) :
    ∃ p : UPayload, res = some p ∧
      ∀ (att : Bytes) (r : Reply) (s : Sample),
        env.uattributes_to_attachment
          (request_attributes_of env method call_options payload) = some att →
        env.query_outcome (request_query_of env method call_options payload att) =
          .reply r →
        r.sample = .ok s → p.payload = s.payload := by
  rcases henc : env.uattributes_to_attachment
      (request_attributes_of env method call_options payload) with _ | att
  · rw [invoke_method_encode_none env method call_options payload henc] at h
    exact Except.noConfusion h
  · rcases hq : env.query_outcome (request_query_of env method call_options payload att)
        with _ | _ | r
    · rw [invoke_method_send_error env method call_options payload att henc hq] at h
      exact Except.noConfusion h
    · rw [invoke_method_recv_error env method call_options payload att henc hq] at h
      exact Except.noConfusion h
    · rcases hs : r.sample with d | s
      · rw [invoke_method_reply_error env method call_options payload att r d henc hq hs] at h
        exact Except.noConfusion h
      · rw [invoke_method_reply_ok env method call_options payload att r s henc hq hs] at h
        have h2 : Except.ok (ε := ServiceInvocationError)
            (some (UPayload.mk s.payload
              (((s.attachment.bind env.attachment_to_uattributes).map
                (fun attr => attr.payload_format)).getD
                .UPAYLOAD_FORMAT_UNSPECIFIED))) = .ok res := h
        refine ⟨_, (Except.ok.inj h2).symm, ?_⟩
        intro att2 r2 s2 ha2 hr2 hs2
        have hatt : att = att2 := Option.some.inj ha2
        subst hatt
        rw [hq] at hr2
        have hr : r = r2 := QueryOutcome.reply.inj hr2
        subst hr
        rw [hs] at hs2
        have hsmp : s = s2 := Except.ok.inj hs2
        subst hsmp
        rfl

/-- Witness for the amended C4 at a concrete input: the empty-payload
reply environment yields `Some` of the empty-bytes payload. -/
theorem invoke_method_success_always_some_witness :
    ∃ p : UPayload,
      (some (UPayload.mk [] .UPAYLOAD_FORMAT_UNSPECIFIED) : Option UPayload) = some p ∧
      ∀ (att : Bytes) (r : Reply) (s : Sample),
        envReplyEmpty.uattributes_to_attachment
          (request_attributes_of envReplyEmpty testMethodUri testOptions none) = some att →
        envReplyEmpty.query_outcome
          (request_query_of envReplyEmpty testMethodUri testOptions none att) = .reply r →
        r.sample = .ok s → p.payload = s.payload :=
  invoke_method_success_always_some envReplyEmpty testMethodUri testOptions none
    (some (UPayload.mk [] .UPAYLOAD_FORMAT_UNSPECIFIED)) rfl

/-- C5 counterexample: in a concrete environment whose attachment codec
fails, no outbound query is issued at all, so it is not the case that
every invocation issues exactly one outbound query. -/
theorem invoke_method_not_always_one_query :
    sent_queries (invoke_method envEncodeFail testMethodUri testOptions none).2 = [] ∧
    (sent_queries (invoke_method envEncodeFail testMethodUri testOptions none).2).length ≠ 1 := by
  exact ⟨rfl, by decide⟩

/-- C5 (amended): every invocation issues at most one outbound query and
consumes at most one reply (a single receive, never a fan-out
aggregation); whenever the request attributes encode successfully,
exactly one query is issued, configured with a timeout equal to the
invocation's time-to-live in milliseconds and with the best-matching
target-selection policy. -/
theorem invoke_method_dispatch_config (env : Env) (method : UUri)
    (call_options : CallOptions) (payload : Option UPayload) :
    (sent_queries (invoke_method env method call_options payload).2).length ≤ 1 ∧
    recv_count (invoke_method env method call_options payload).2 ≤ 1 ∧
    ∀ att : Bytes,
      env.uattributes_to_attachment
        (request_attributes_of env method call_options payload) = some att →
      sent_queries (invoke_method env method call_options payload).2 =
        [request_query_of env method call_options payload att] ∧
      (request_query_of env method call_options payload att).timeout_ms =
        call_options.ttl ∧
      (request_query_of env method call_options payload att).target = .BestMatching := by
  rcases invoke_method_trace_spec env method call_options payload with
      ⟨henc, htr⟩ | ⟨att, henc, htr | htr⟩
  · rw [htr]
    refine ⟨by decide, by decide, ?_⟩
    intro att2 h2
    rw [henc] at h2
    exact Option.noConfusion h2
  · rw [htr]
    refine ⟨Nat.le.refl, Nat.zero_le 1, ?_⟩
    intro att2 h2
    rw [henc] at h2
    have hatt : att = att2 := Option.some.inj h2
    subst hatt
    exact ⟨rfl, rfl, rfl⟩
  · rw [htr]
    refine ⟨Nat.le.refl, Nat.le.refl, ?_⟩
    intro att2 h2
    rw [henc] at h2
    have hatt : att = att2 := Option.some.inj h2
    subst hatt
    exact ⟨rfl, rfl, rfl⟩

/-- Witness for the amended C5 at a concrete input: in the send-failure
environment the single sent query has ttl-millisecond timeout and
best-matching target. -/
theorem invoke_method_dispatch_config_witness :
    sent_queries (invoke_method envSendFail testMethodUri testOptions none).2 =
      [request_query_of envSendFail testMethodUri testOptions none [1, 2, 3]] ∧
    (request_query_of envSendFail testMethodUri testOptions none [1, 2, 3]).timeout_ms =
      testOptions.ttl ∧
    (request_query_of envSendFail testMethodUri testOptions none [1, 2, 3]).target =
      .BestMatching :=
  (invoke_method_dispatch_config envSendFail testMethodUri testOptions none).2.2
    [1, 2, 3] rfl

/-- C6: for a successful round trip, the returned value is `Some` of a
payload whose bytes equal the responder's reply sample bytes and whose
format tag equals the payload format declared in the reply's own
decoded attachment; neither the request's payload bytes nor its
declared format occurs in the conclusion — both are universally
quantified and do not influence the successful result. -/
theorem invoke_method_reply_format_from_attachment (env : Env) (method : UUri)
    (call_options : CallOptions) (payload : Option UPayload) (att : Bytes)
    (r : Reply) (s : Sample) (a : Bytes) (attrs : UAttributes)
    (h1 : env.uattributes_to_attachment
        (request_attributes_of env method call_options payload) = some att)
    (h2 : env.query_outcome (request_query_of env method call_options payload att) =
        .reply r)
    (h3 : r.sample = .ok s)
    (h4 : s.attachment = some a)
    (h5 : env.attachment_to_uattributes a = some attrs) :
    (invoke_method env method call_options payload).1 =
      .ok (some (UPayload.mk s.payload attrs.payload_format)) := by
  rw [invoke_method_reply_ok env method call_options payload att r s h1 h2 h3]
  simp [h4, h5]

/-- Witness for C6 at a concrete input: the request declares PROTOBUF
format but the reply attachment declares TEXT; the result carries the
reply bytes with the TEXT tag. -/
theorem invoke_method_reply_format_from_attachment_witness :
    (invoke_method envReplyText testMethodUri testOptions
        (some (UPayload.mk [0, 1] .UPAYLOAD_FORMAT_PROTOBUF))).1 =
      .ok (some (UPayload.mk [104, 105] .UPAYLOAD_FORMAT_TEXT)) :=
  invoke_method_reply_format_from_attachment envReplyText testMethodUri testOptions
    (some (UPayload.mk [0, 1] .UPAYLOAD_FORMAT_PROTOBUF)) [1, 2, 3]
    ⟨.ok ⟨[104, 105], some [9]⟩⟩ ⟨[104, 105], some [9]⟩ [9] testReplyAttributes
    rfl rfl rfl rfl rfl

/-- Concrete call options carrying a caller-supplied identity, an
explicit priority and a token. -/
def testOptionsWithId : CallOptions := ⟨1000, some testUuid, some .UPRIORITY_CS5, some "tok"⟩

/-- Every query actually sent by an invocation carries, as its
attachment, the successful encoding of exactly the request attributes
built for that invocation. -/
theorem invoke_sent_query_encodes_attributes (env : Env) (method : UUri)
    (call_options : CallOptions) (payload : Option UPayload) :
    ∀ q ∈ sent_queries (invoke_method env method call_options payload).2,
      env.uattributes_to_attachment
        (request_attributes_of env method call_options payload) = some q.attachment := by
  rcases invoke_method_trace_spec env method call_options payload with
      ⟨henc, htr⟩ | ⟨att, henc, htr | htr⟩ <;> rw [htr] <;> intro q hq
  · exact absurd hq (List.not_mem_nil q)
  · rw [List.mem_singleton.mp hq]
    exact henc
  · rw [List.mem_singleton.mp hq]
    exact henc

/-- C7: the message identity placed in the outbound request attributes
equals the caller-supplied identity when the call options contain one,
and otherwise is the freshly built UUID of this call; every query the
invocation sends carries the encoding of exactly these attributes. -/
theorem request_attributes_message_identity (env : Env) (method : UUri)
    (call_options : CallOptions) (payload : Option UPayload) :
    (∀ u : UUID, call_options.message_id = some u →
      (request_attributes_of env method call_options payload).id = some u) ∧
    (call_options.message_id = none →
      (request_attributes_of env method call_options payload).id = some env.fresh_uuid) ∧
    (∀ q ∈ sent_queries (invoke_method env method call_options payload).2,
      env.uattributes_to_attachment
        (request_attributes_of env method call_options payload) = some q.attachment) := by
  refine ⟨?_, ?_, invoke_sent_query_encodes_attributes env method call_options payload⟩
  · intro u hu
    simp [request_attributes_of, hu]
  · intro hn
    simp [request_attributes_of, hn]

/-- Witness for C7 at concrete inputs: a supplied identity is used
verbatim; an omitted identity falls back to the fresh UUID. -/
theorem request_attributes_message_identity_witness :
    (request_attributes_of envSendFail testMethodUri testOptionsWithId none).id =
      some testUuid ∧
    (request_attributes_of envSendFail testMethodUri testOptions none).id =
      some envSendFail.fresh_uuid :=
  ⟨(request_attributes_message_identity envSendFail testMethodUri testOptionsWithId
      none).1 testUuid rfl,
   (request_attributes_message_identity envSendFail testMethodUri testOptions
      none).2.1 rfl⟩

/-- C8: when no payload is supplied, the request attributes carry the
UNSPECIFIED payload-format sentinel and any query the invocation sends
has no body. -/
theorem invoke_method_no_payload_defaults (env : Env) (method : UUri)
    (call_options : CallOptions) :
    (request_attributes_of env method call_options none).payload_format =
      .UPAYLOAD_FORMAT_UNSPECIFIED ∧
    ∀ q ∈ sent_queries (invoke_method env method call_options none).2,
      q.body = none := by
  refine ⟨rfl, ?_⟩
  rcases invoke_method_trace_spec env method call_options none with
      ⟨henc, htr⟩ | ⟨att, henc, htr | htr⟩ <;> rw [htr] <;> intro q hq
  · exact absurd hq (List.not_mem_nil q)
  · rw [List.mem_singleton.mp hq]
    rfl
  · rw [List.mem_singleton.mp hq]
    rfl

/-- Witness for C8 at a concrete input: the single query sent in the
send-failure environment has no body, and the attributes carry the
UNSPECIFIED format. -/
theorem invoke_method_no_payload_defaults_witness :
    (request_attributes_of envSendFail testMethodUri testOptions none).payload_format =
      .UPAYLOAD_FORMAT_UNSPECIFIED ∧
    (request_query_of envSendFail testMethodUri testOptions none [1, 2, 3]).body = none :=
  ⟨(invoke_method_no_payload_defaults envSendFail testMethodUri testOptions).1,
   (invoke_method_no_payload_defaults envSendFail testMethodUri testOptions).2
     (request_query_of envSendFail testMethodUri testOptions none [1, 2, 3])
     (List.mem_singleton.mpr rfl)⟩

/-- C9: the priority placed in the outbound request attributes equals
the caller-supplied priority when present and otherwise the explicit
UNSPECIFIED sentinel; every query the invocation sends carries the
encoding of exactly these attributes. -/
theorem request_attributes_priority (env : Env) (method : UUri)
    (call_options : CallOptions) (payload : Option UPayload) :
    (∀ p : UPriority, call_options.priority = some p →
      (request_attributes_of env method call_options payload).priority = p) ∧
    (call_options.priority = none →
      (request_attributes_of env method call_options payload).priority =
        .UPRIORITY_UNSPECIFIED) ∧
    (∀ q ∈ sent_queries (invoke_method env method call_options payload).2,
      env.uattributes_to_attachment
        (request_attributes_of env method call_options payload) = some q.attachment) := by
  refine ⟨?_, ?_, invoke_sent_query_encodes_attributes env method call_options payload⟩
  · intro p hp
    simp [request_attributes_of, hp]
  · intro hn
    simp [request_attributes_of, hn]

/-- Witness for C9 at concrete inputs: a supplied priority is used
verbatim; an omitted priority yields the UNSPECIFIED sentinel. -/
theorem request_attributes_priority_witness :
    (request_attributes_of envSendFail testMethodUri testOptionsWithId none).priority =
      .UPRIORITY_CS5 ∧
    (request_attributes_of envSendFail testMethodUri testOptions none).priority =
      .UPRIORITY_UNSPECIFIED :=
  ⟨(request_attributes_priority envSendFail testMethodUri testOptionsWithId none).1
      .UPRIORITY_CS5 rfl,
   (request_attributes_priority envSendFail testMethodUri testOptions none).2.1 rfl⟩

/-- C10: the caller's source URI is resolved exactly once per
invocation; that single value is both the source field of the request
attributes and the first input of the wire-key derivation of every
query the invocation sends, so routing key and attached metadata can
never name different sources; the attributes have message kind REQUEST
with source and sink both present (the sink being the target method). -/
theorem invoke_method_source_consistency (env : Env) (method : UUri)
    (call_options : CallOptions) (payload : Option UPayload) :
    source_resolved_count (invoke_method env method call_options payload).2 = 1 ∧
    (request_attributes_of env method call_options payload).source =
      some env.get_source_uri ∧
    (request_attributes_of env method call_options payload).sink = some method ∧
    (request_attributes_of env method call_options payload).type_ =
      .UMESSAGE_TYPE_REQUEST ∧
    ∀ q ∈ sent_queries (invoke_method env method call_options payload).2,
      q.key_expr = env.to_zenoh_key_string env.get_source_uri (some method) := by
  rcases invoke_method_trace_spec env method call_options payload with
      ⟨henc, htr⟩ | ⟨att, henc, htr | htr⟩ <;> rw [htr] <;>
    refine ⟨rfl, rfl, rfl, rfl, ?_⟩ <;> intro q hq
  · exact absurd hq (List.not_mem_nil q)
  · rw [List.mem_singleton.mp hq]
    rfl
  · rw [List.mem_singleton.mp hq]
    rfl

/-- Witness for C10 at a concrete input: the single query sent in the
send-failure environment is keyed by the derivation from the resolved
source and the target method. -/
theorem invoke_method_source_consistency_witness :
    (request_query_of envSendFail testMethodUri testOptions none [1, 2, 3]).key_expr =
      envSendFail.to_zenoh_key_string envSendFail.get_source_uri (some testMethodUri) :=
  (invoke_method_source_consistency envSendFail testMethodUri testOptions none).2.2.2.2
    (request_query_of envSendFail testMethodUri testOptions none [1, 2, 3])
    (List.mem_singleton.mpr rfl)
